import Mathlib

/-!
Verification development for the DRISHTI voter-duplicate-detection engine
(`src/app.py`).  The Python code is shallowly embedded here:

* Missing cells (`NaN`, i.e. `pd.isna`) are modelled as `none` of an `Option`.
* Python floats are modelled as exact rationals (`ℚ`); day counts as `ℤ`.
* The four `fuzzywuzzy` string measures (`fuzz.ratio`, `fuzz.partial_ratio`,
  `fuzz.token_sort_ratio`, `fuzz.token_set_ratio`) are external library
  functions, not repository code; they are modelled as an abstract bundle of
  functions (`Fuzz`), so every theorem about the repository's own logic is
  proved for an arbitrary bundle, and concrete bundles are supplied for
  evaluation.
* The f-string reason messages built by `detect_duplicates` are modelled as
  tagged values (`Reason`) carrying exactly the numbers the format strings
  interpolate; the surrounding fixed text of each message is determined by
  the tag.
* `pd.to_datetime` parsing is modelled by storing a parsed day number
  (`Option Int`, `none` = missing or unparsable, which the `try/except` in
  `calculate_dob_difference` collapses into the same sentinel).
-/

namespace Drishti

/-- The four string-similarity primitives imported from the `fuzzywuzzy`
library (`fuzz.ratio`, `fuzz.partial_ratio`, `fuzz.token_sort_ratio`,
`fuzz.token_set_ratio`).  They are parameters of the embedding: the
repository's code calls them as black boxes. -/
structure Fuzz where
  ratio : String → String → ℚ
  partRatio : String → String → ℚ
  tokenSortRatio : String → String → ℚ
  tokenSetRatio : String → String → ℚ

/-- Python's `str.strip()`: drop whitespace from both ends, written out on
the character list so that it evaluates by kernel reduction. -/
def pyStrip (s : String) : String :=
  ⟨((s.data.dropWhile Char.isWhitespace).reverse.dropWhile Char.isWhitespace).reverse⟩

/-- Python's `str.upper()` on the character list. -/
def pyUpper (s : String) : String :=
  ⟨s.data.map Char.toUpper⟩

/-- `calculate_name_similarity` (src/app.py lines 55-71): `pd.isna` on either
side gives 0; otherwise both names are stripped and upper-cased and the four
fuzz measures are blended with weights 0.3 / 0.2 / 0.25 / 0.25. -/
def calculate_name_similarity (F : Fuzz) (name1 name2 : Option String) : ℚ :=
  match name1, name2 with
  | some n1, some n2 =>
    let s1 := pyUpper (pyStrip n1)
    let s2 := pyUpper (pyStrip n2)
    F.ratio s1 s2 * 0.3 + F.partRatio s1 s2 * 0.2 +
      F.tokenSortRatio s1 s2 * 0.25 + F.tokenSetRatio s1 s2 * 0.25
  | _, _ => 0

/-- `calculate_address_similarity` (src/app.py lines 74-82): `pd.isna` on
either side gives 0; otherwise strip, upper-case, and apply the token-set
measure alone. -/
def calculate_address_similarity (F : Fuzz) (addr1 addr2 : Option String) : ℚ :=
  match addr1, addr2 with
  | some a1, some a2 => F.tokenSetRatio (pyUpper (pyStrip a1)) (pyUpper (pyStrip a2))
  | _, _ => 0

/-- `calculate_dob_difference` (src/app.py lines 85-96): missing or
unparsable dates give the sentinel 999999, otherwise the absolute difference
in days.  Dates are represented by their parsed day number. -/
def calculate_dob_difference (dob1 dob2 : Option Int) : ℤ :=
  match dob1, dob2 with
  | some d1, some d2 => |d1 - d2|
  | _, _ => 999999

/-- The run configuration threaded into `detect_duplicates` (the four sidebar
controls, src/app.py lines 29-52 and 217-223). -/
structure DetectionConfig where
  name_threshold : ℚ
  dob_tolerance_days : ℤ
  check_addr : Bool
  addr_threshold : ℚ
  deriving DecidableEq

/-- The documented ranges of the sidebar controls (src/app.py lines 29-52:
name threshold 50-100, DOB tolerance 0-365 days, address threshold 50-100). -/
def configInRange (cfg : DetectionConfig) : Prop :=
  50 ≤ cfg.name_threshold ∧ cfg.name_threshold ≤ 100 ∧
    0 ≤ cfg.dob_tolerance_days ∧ cfg.dob_tolerance_days ≤ 365 ∧
    50 ≤ cfg.addr_threshold ∧ cfg.addr_threshold ≤ 100

/-- One row of the voter table, with the four columns the engine reads.
`none` models a missing (`NaN`) cell; `Date_of_Birth` stores the parsed day
number (`none` = missing or unparsable). -/
structure VoterRecord where
  Voter_ID : Option String
  Full_Name : Option String
  Date_of_Birth : Option Int
  Address : Option String
  deriving DecidableEq

/-- A rationale tag, modelling one f-string appended to `reasons`
(src/app.py lines 152, 158-159, 165-166); each tag carries the value its
format string interpolates. -/
inductive Reason where
  | highName (value : ℚ)
  | nameSim (value : ℚ)
  | dobDiff (days : ℤ)
  | addrSim (value : ℚ)
  deriving DecidableEq

/-- The dict appended to `duplicates` for a flagged pair
(src/app.py lines 169-185). -/
structure DupRecord where
  Record_1_Index : Nat
  Record_2_Index : Nat
  Voter_ID_1 : Option String
  Voter_ID_2 : Option String
  Name_1 : Option String
  Name_2 : Option String
  DOB_1 : Option Int
  DOB_2 : Option Int
  Address_1 : Option String
  Address_2 : Option String
  Name_Similarity : ℚ
  DOB_Difference_Days : ℤ
  Address_Similarity : ℚ
  Confidence_Score : ℚ
  Detection_Reasons : List Reason
  deriving DecidableEq

/-- The per-pair decision logic of `detect_duplicates`
(src/app.py lines 131-133 and 144-166): first the `name_threshold` gate
(`continue` when `name_sim < name_threshold`), then the three tiers in
priority order.  Returns the confidence and reasons of a flagged pair. -/
def classify_pair (cfg : DetectionConfig) (name_sim : ℚ) (dob_diff : ℤ)
    (addr_sim : ℚ) : Option (ℚ × List Reason) :=
  if name_sim < cfg.name_threshold then none
  else if 95 ≤ name_sim then
    some (name_sim, [Reason.highName name_sim])
  else if cfg.name_threshold ≤ name_sim ∧ dob_diff ≤ cfg.dob_tolerance_days then
    some ((name_sim + (100 - (dob_diff : ℚ) / 365 * 100)) / 2,
      [Reason.nameSim name_sim, Reason.dobDiff dob_diff])
  else if cfg.name_threshold ≤ name_sim ∧ cfg.check_addr = true ∧
      cfg.addr_threshold ≤ addr_sim then
    some ((name_sim + addr_sim) / 2,
      [Reason.nameSim name_sim, Reason.addrSim addr_sim])
  else none

/-- The body of the inner loop of `detect_duplicates` for one pair `(i, j)`
(src/app.py lines 125-185): compute the three metrics (address similarity is
0 when address matching is off, line 139-141), classify, and on a duplicate
build the output dict. -/
def process_pair (F : Fuzz) (cfg : DetectionConfig) (i j : Nat)
    (record1 record2 : VoterRecord) : Option DupRecord :=
  let name_sim := calculate_name_similarity F record1.Full_Name record2.Full_Name
  let dob_diff := calculate_dob_difference record1.Date_of_Birth record2.Date_of_Birth
  let addr_sim := if cfg.check_addr then
      calculate_address_similarity F record1.Address record2.Address
    else 0
  match classify_pair cfg name_sim dob_diff addr_sim with
  | none => none
  | some (confidence, reasons) =>
    some { Record_1_Index := i
           Record_2_Index := j
           Voter_ID_1 := record1.Voter_ID
           Voter_ID_2 := record2.Voter_ID
           Name_1 := record1.Full_Name
           Name_2 := record2.Full_Name
           DOB_1 := record1.Date_of_Birth
           DOB_2 := record2.Date_of_Birth
           Address_1 := record1.Address
           Address_2 := record2.Address
           Name_Similarity := name_sim
           DOB_Difference_Days := dob_diff
           Address_Similarity := addr_sim
           Confidence_Score := confidence
           Detection_Reasons := reasons }

/-- The index pairs visited by the two nested loops
`for i in range(n): for j in range(i+1, n)` (src/app.py lines 114-118),
in visiting order. -/
def pairIndices (n : Nat) : List (Nat × Nat) :=
  (List.range n).flatMap fun i => (List.range' (i + 1) (n - (i + 1))).map fun j => (i, j)

/-- The mutable state of the scan loop: the runtime `compared` set
(kept as a list) and the accumulated `duplicates` list. -/
structure ScanState where
  compared : List (Nat × Nat)
  duplicates : List DupRecord

/-- Fallback row for out-of-range positional access (never reached for the
indices `pairIndices` produces). -/
def defaultRecord : VoterRecord := ⟨none, none, none, none⟩

/-- The positional row fetch `record1 = df.iloc[i]; record2 = df.iloc[j]`
(src/app.py lines 125-126) followed by the loop body for that pair. -/
def process_at (F : Fuzz) (cfg : DetectionConfig) (df : List VoterRecord)
    (ij : Nat × Nat) : Option DupRecord :=
  process_pair F cfg ij.1 ij.2 (df.getD ij.1 defaultRecord)
    (df.getD ij.2 defaultRecord)

/-- One iteration of the inner loop (src/app.py lines 118-185): compute the
canonical key `tuple(sorted([i, j]))`, skip if already in `compared`,
otherwise add it and process the pair. -/
def stepPair (F : Fuzz) (cfg : DetectionConfig) (df : List VoterRecord)
    (s : ScanState) (ij : Nat × Nat) : ScanState :=
  let pair := (min ij.1 ij.2, max ij.1 ij.2)
  if pair ∈ s.compared then s
  else
    match process_at F cfg df ij with
    | none => ⟨pair :: s.compared, s.duplicates⟩
    | some d => ⟨pair :: s.compared, s.duplicates ++ [d]⟩

/-- `detect_duplicates` (src/app.py lines 99-190): fold the loop body over
all index pairs starting from an empty `compared` set and an empty
`duplicates` list; the result is the final `duplicates` list (the returned
DataFrame's rows, in emission order). -/
def detect_duplicates (F : Fuzz) (cfg : DetectionConfig)
    (df : List VoterRecord) : List DupRecord :=
  ((pairIndices df.length).foldl (stepPair F cfg df) ⟨[], []⟩).duplicates

/-- The scan with the `compared` set and its skip check removed: process
every pair of the canonical `i < j` enumeration directly. -/
def detect_duplicates_simple (F : Fuzz) (cfg : DetectionConfig)
    (df : List VoterRecord) : List DupRecord :=
  (pairIndices df.length).filterMap (process_at F cfg df)

/-- An emitted row flagged by Tier 3, recognised by its reason shape
(name similarity followed by address similarity, src/app.py lines 165-166);
the other tiers emit `[highName _]` or `[nameSim _, dobDiff _]`. -/
def isTier3 (d : DupRecord) : Bool :=
  match d.Detection_Reasons with
  | [Reason.nameSim _, Reason.addrSim _] => true
  | _ => false

/-- Number of emitted rows flagged by Tier 3. -/
def tier3Count (res : List DupRecord) : Nat := (res.filter (fun d => isTier3 d)).length

/-- Each fuzz primitive returns a value in [0, 100] (true of the real
library measures, which are percentages). -/
def Fuzz.Bounded (F : Fuzz) : Prop :=
  ∀ a b, (0 ≤ F.ratio a b ∧ F.ratio a b ≤ 100) ∧
    (0 ≤ F.partRatio a b ∧ F.partRatio a b ≤ 100) ∧
    (0 ≤ F.tokenSortRatio a b ∧ F.tokenSortRatio a b ≤ 100) ∧
    (0 ≤ F.tokenSetRatio a b ∧ F.tokenSetRatio a b ≤ 100)

/-- Each fuzz primitive is symmetric in its two arguments (true of the real
library measures, which compare the argument pair order-insensitively). -/
def Fuzz.Symm (F : Fuzz) : Prop :=
  ∀ a b, F.ratio a b = F.ratio b a ∧ F.partRatio a b = F.partRatio b a ∧
    F.tokenSortRatio a b = F.tokenSortRatio b a ∧
    F.tokenSetRatio a b = F.tokenSetRatio b a

/-- Concrete fuzz bundle for evaluation: every measure is 100 on equal
normalized strings and 0 otherwise. -/
def fuzzEq : Fuzz where
  ratio a b := if a = b then 100 else 0
  partRatio a b := if a = b then 100 else 0
  tokenSortRatio a b := if a = b then 100 else 0
  tokenSetRatio a b := if a = b then 100 else 0

/-- Fuzz bundle whose four primitives return the given constants on every
input, used to instantiate theorems at chosen metric values. -/
def constFuzz (r p ts tse : ℚ) : Fuzz :=
  ⟨fun _ _ => r, fun _ _ => p, fun _ _ => ts, fun _ _ => tse⟩

/-- Fuzzywuzzy's measures on the distinct pair "RAVI KUMAR" / "RAVI KUMARR"
(ratio 95, partial 100, token-sort 95, token-set 95), whose weighted blend
is 96; taken as the constant outputs of a bundle. -/
def fuzzNear : Fuzz := constFuzz 95 100 95 95

/-- Bundle in which every measure scores 90, so every present-name blend is
also 90. -/
def fuzzNinety : Fuzz := constFuzz 90 90 90 90

/-- Bundle in which every measure scores 100 (fuzzywuzzy's behavior on
identical strings), so every present-name blend is 100. -/
def fuzzFull : Fuzz := constFuzz 100 100 100 100

/-! ### Duck-typed row model of the scan

The upload path (src/app.py lines 202-223) runs `pd.read_csv` and passes the
DataFrame straight to `detect_duplicates` with no column validation.  Column
access `record['...']` on a row is duck-typed and raises `KeyError` when the
column is absent.  This second embedding of the same scan keeps rows as
column-name/cell association lists and makes each column access fallible, to
observe exactly where a missing column surfaces. -/

/-- A raw table row: column name to cell; `none` models a `NaN` cell. -/
def Row : Type := List (String × Option String)

/-- Where a missing column surfaced: the `KeyError` raised by
`record['col']` while the scan was processing pair `(i, j)`. -/
inductive ScanError where
  | keyError (i j : Nat) (col : String)
  deriving DecidableEq

/-- `record['col']` on row `r` during the comparison of pair `(i, j)`:
the cell, or a `KeyError` naming the column. -/
def getItem (i j : Nat) (r : Row) (col : String) :
    Except ScanError (Option String) :=
  match List.lookup col r with
  | some v => Except.ok v
  | none => Except.error (ScanError.keyError i j col)

/-- Fallback row for out-of-range positional access. -/
def defaultRow : Row := []

/-- The inner-loop body of `detect_duplicates` over raw rows
(src/app.py lines 125-185), with every `record['...']` access explicit and
in program order: both names (line 129), the gate (line 132), both birth
dates (line 136), both addresses when enabled (line 141), and on a flagged
pair the accesses of the output dict (lines 172-179).  `parse` models
`pd.to_datetime` (`none` = unparsable, collapsed with missing into the
sentinel by `calculate_dob_difference`). -/
def raw_pair (F : Fuzz) (parse : String → Option Int) (cfg : DetectionConfig)
    (df : List Row) (i j : Nat) : Except ScanError (Option DupRecord) := do
  let record1 := df.getD i defaultRow
  let record2 := df.getD j defaultRow
  let name1 ← getItem i j record1 "Full_Name"
  let name2 ← getItem i j record2 "Full_Name"
  let name_sim := calculate_name_similarity F name1 name2
  if name_sim < cfg.name_threshold then
    return none
  else
    let dob1 ← getItem i j record1 "Date_of_Birth"
    let dob2 ← getItem i j record2 "Date_of_Birth"
    let dob_diff := calculate_dob_difference (dob1.bind parse) (dob2.bind parse)
    let addr_sim ← if cfg.check_addr then do
        let a1 ← getItem i j record1 "Address"
        let a2 ← getItem i j record2 "Address"
        pure (calculate_address_similarity F a1 a2)
      else pure 0
    match classify_pair cfg name_sim dob_diff addr_sim with
    | none => return none
    | some (confidence, reasons) => do
      let v1 ← getItem i j record1 "Voter_ID"
      let v2 ← getItem i j record2 "Voter_ID"
      let a1 ← getItem i j record1 "Address"
      let a2 ← getItem i j record2 "Address"
      return some { Record_1_Index := i
                    Record_2_Index := j
                    Voter_ID_1 := v1
                    Voter_ID_2 := v2
                    Name_1 := name1
                    Name_2 := name2
                    DOB_1 := dob1.bind parse
                    DOB_2 := dob2.bind parse
                    Address_1 := a1
                    Address_2 := a2
                    Name_Similarity := name_sim
                    DOB_Difference_Days := dob_diff
                    Address_Similarity := addr_sim
                    Confidence_Score := confidence
                    Detection_Reasons := reasons }

/-- The scan loop over raw rows: visit the pairs in order, keep the
`compared` set, stop at the first raised `KeyError`. -/
def raw_scan (F : Fuzz) (parse : String → Option Int) (cfg : DetectionConfig)
    (df : List Row) :
    List (Nat × Nat) → List (Nat × Nat) → List DupRecord →
      Except ScanError (List DupRecord)
  | [], _, acc => Except.ok acc
  | ij :: ps, compared, acc =>
    let pair := (min ij.1 ij.2, max ij.1 ij.2)
    if pair ∈ compared then raw_scan F parse cfg df ps compared acc
    else
      match raw_pair F parse cfg df ij.1 ij.2 with
      | Except.error e => Except.error e
      | Except.ok none => raw_scan F parse cfg df ps (pair :: compared) acc
      | Except.ok (some d) => raw_scan F parse cfg df ps (pair :: compared) (acc ++ [d])

/-- The whole run on an uploaded table (src/app.py lines 202-223): the rows
go straight from `pd.read_csv` into `detect_duplicates`; there is no column
validation step in between. -/
def run_scan_raw (F : Fuzz) (parse : String → Option Int)
    (cfg : DetectionConfig) (df : List Row) : Except ScanError (List DupRecord) :=
  raw_scan F parse cfg df (pairIndices df.length) [] []

/-! ### Concrete run inputs for witnesses and counterexamples -/

/-- Default sidebar settings: threshold 85, tolerance 30 days, address
matching on with threshold 70 (src/app.py lines 29-52). -/
def cfg85 : DetectionConfig := ⟨85, 30, true, 70⟩

/-- Name threshold raised to 97 — inside the documented 50-100 range and
strictly above Tier 1's bar of 95; other controls at their defaults. -/
def cfgGate : DetectionConfig := ⟨97, 30, true, 70⟩

/-- Default settings with address matching switched off. -/
def cfgNoAddr : DetectionConfig := ⟨85, 30, false, 70⟩

/-- A parse function under which no date string parses. -/
def parseNone : String → Option Int := fun _ => none

def rRavi : VoterRecord :=
  ⟨some "V001", some "RAVI KUMAR", some 7500, some "12 MG ROAD"⟩

def rRaviTypo : VoterRecord :=
  ⟨some "V002", some "RAVI KUMARR", some 7500, some "12 MG ROAD"⟩

def rAsha : VoterRecord :=
  ⟨some "V003", some "ASHA DEVI", some 100, some "7 PARK ST"⟩

def rAshaTypo : VoterRecord :=
  ⟨some "V004", some "ASHA DEVII", some 110, some "7 PARK ST"⟩

def rSunitaA : VoterRecord :=
  ⟨some "V005", some "SUNITA RAO", some 200, some "12 MG ROAD"⟩

def rSunitaB : VoterRecord :=
  ⟨some "V006", some "SUNITA RAO", some 200, some "99 LAKE VIEW"⟩

/-- A record whose `Full_Name` cell is missing. -/
def rNoName : VoterRecord := ⟨some "V007", none, some 300, some "4 HILL RD"⟩

def rMeeraA : VoterRecord :=
  ⟨some "V008", some "MEERA JOSHI", none, some "4 HILL RD"⟩

def rMeeraB : VoterRecord :=
  ⟨some "V009", some "MEERA JOSHI", none, some "4 HILL RD"⟩

/-- The row emitted for `[rRavi, rRaviTypo]` under `fuzzFull` and `cfg85`. -/
def dupRavi : DupRecord :=
  { Record_1_Index := 0, Record_2_Index := 1
    Voter_ID_1 := some "V001", Voter_ID_2 := some "V002"
    Name_1 := some "RAVI KUMAR", Name_2 := some "RAVI KUMARR"
    DOB_1 := some 7500, DOB_2 := some 7500
    Address_1 := some "12 MG ROAD", Address_2 := some "12 MG ROAD"
    Name_Similarity := 100, DOB_Difference_Days := 0, Address_Similarity := 100
    Confidence_Score := 100, Detection_Reasons := [Reason.highName 100] }

/-- The row emitted for `[rSunitaA, rSunitaB]` under `fuzzEq` and
`cfgNoAddr`. -/
def dupSunita : DupRecord :=
  { Record_1_Index := 0, Record_2_Index := 1
    Voter_ID_1 := some "V005", Voter_ID_2 := some "V006"
    Name_1 := some "SUNITA RAO", Name_2 := some "SUNITA RAO"
    DOB_1 := some 200, DOB_2 := some 200
    Address_1 := some "12 MG ROAD", Address_2 := some "99 LAKE VIEW"
    Name_Similarity := 100, DOB_Difference_Days := 0, Address_Similarity := 0
    Confidence_Score := 100, Detection_Reasons := [Reason.highName 100] }

/-- The row emitted for `[rNoName, rMeeraA, rMeeraB]` under `fuzzFull` and
`cfg85`: only the pair (1, 2) is flagged. -/
def dupMeera : DupRecord :=
  { Record_1_Index := 1, Record_2_Index := 2
    Voter_ID_1 := some "V008", Voter_ID_2 := some "V009"
    Name_1 := some "MEERA JOSHI", Name_2 := some "MEERA JOSHI"
    DOB_1 := none, DOB_2 := none
    Address_1 := some "4 HILL RD", Address_2 := some "4 HILL RD"
    Name_Similarity := 100, DOB_Difference_Days := 999999, Address_Similarity := 100
    Confidence_Score := 100, Detection_Reasons := [Reason.highName 100] }

/-- The row emitted for `[rMeeraA, rMeeraB]` (both DOBs missing) under
`fuzzFull` and `cfg85`. -/
def dupMeeraPair : DupRecord :=
  { Record_1_Index := 0, Record_2_Index := 1
    Voter_ID_1 := some "V008", Voter_ID_2 := some "V009"
    Name_1 := some "MEERA JOSHI", Name_2 := some "MEERA JOSHI"
    DOB_1 := none, DOB_2 := none
    Address_1 := some "4 HILL RD", Address_2 := some "4 HILL RD"
    Name_Similarity := 100, DOB_Difference_Days := 999999, Address_Similarity := 100
    Confidence_Score := 100, Detection_Reasons := [Reason.highName 100] }

/-- Two-row raw table that has a `Voter_ID` column but no `Full_Name`
column at all. -/
def tableNoName : List Row :=
  [[("Voter_ID", some "V001")], [("Voter_ID", some "V002")]]

/-! ### Structural lemmas about the pair enumeration and the scan loop -/

lemma mem_pairIndices {n i j : Nat} :
    (i, j) ∈ pairIndices n ↔ i < j ∧ j < n := by
  simp only [pairIndices, List.mem_flatMap, List.mem_map, List.mem_range,
    List.mem_range'_1, Prod.mk.injEq]
  constructor
  · rintro ⟨a, ha, b, ⟨hb1, hb2⟩, rfl, rfl⟩
    omega
  · rintro ⟨hij, hjn⟩
    exact ⟨i, by omega, j, by omega, rfl, rfl⟩

lemma pairIndices_fst_lt_snd {n : Nat} {p : Nat × Nat} (h : p ∈ pairIndices n) :
    p.1 < p.2 := by
  obtain ⟨i, j⟩ := p
  exact (mem_pairIndices.1 h).1

lemma pairIndices_nodup (n : Nat) : (pairIndices n).Nodup := by
  refine List.nodup_flatMap.2 ⟨fun i _ => ?_, ?_⟩
  · exact (List.nodup_range' _ _).map fun a b h => by
      simpa using congrArg Prod.snd h
  · refine List.Pairwise.imp ?_ (List.nodup_range (n := n))
    intro a b hab
    intro p hpa hpb
    simp only [List.mem_map] at hpa hpb
    obtain ⟨x, _, rfl⟩ := hpa
    obtain ⟨y, _, h2⟩ := hpb
    exact hab (by simpa using (congrArg Prod.fst h2).symm)

/-- With a fresh key at every iteration the skip branch of the loop body is
never taken, so the fold is the plain `filterMap`. -/
lemma foldl_stepPair_of_fresh (F : Fuzz) (cfg : DetectionConfig)
    (df : List VoterRecord) :
    ∀ (ps : List (Nat × Nat)) (s : ScanState),
      (∀ p ∈ ps, p.1 < p.2) → ps.Nodup →
      (∀ p ∈ ps, p ∉ s.compared) →
      (ps.foldl (stepPair F cfg df) s).duplicates =
        s.duplicates ++ ps.filterMap (process_at F cfg df) := by
  intro ps
  induction ps with
  | nil => intro s _ _ _; simp
  | cons p ps ih =>
    intro s hlt hnd hfresh
    have hp : p.1 < p.2 := hlt p (List.mem_cons_self _ _)
    have hkey : (min p.1 p.2, max p.1 p.2) = p := by
      rw [min_eq_left hp.le, max_eq_right hp.le]
    have hpfree : p ∉ s.compared := hfresh p (List.mem_cons_self _ _)
    have hnotmem : (min p.1 p.2, max p.1 p.2) ∉ s.compared := by
      rw [hkey]; exact hpfree
    have hstep : stepPair F cfg df s p =
        match process_at F cfg df p with
        | none => ScanState.mk (p :: s.compared) s.duplicates
        | some d => ScanState.mk (p :: s.compared) (s.duplicates ++ [d]) := by
      rw [stepPair, if_neg hnotmem, hkey]
    have hfresh' : ∀ q ∈ ps, q ∉ p :: s.compared := by
      intro q hq
      simp only [List.mem_cons, not_or]
      exact ⟨fun hqp => (List.nodup_cons.1 hnd).1 (hqp ▸ hq),
        hfresh q (List.mem_cons_of_mem _ hq)⟩
    have hlt' : ∀ q ∈ ps, q.1 < q.2 := fun q hq => hlt q (List.mem_cons_of_mem _ hq)
    have hnd' : ps.Nodup := (List.nodup_cons.1 hnd).2
    rw [List.foldl_cons, hstep]
    cases hpp : process_at F cfg df p with
    | none =>
      rw [ih (ScanState.mk (p :: s.compared) s.duplicates) hlt' hnd' hfresh',
        List.filterMap_cons_none hpp]
    | some d =>
      rw [ih (ScanState.mk (p :: s.compared) (s.duplicates ++ [d])) hlt' hnd' hfresh',
        List.filterMap_cons_some hpp, List.append_assoc, List.singleton_append]

/-- The scan with the runtime `compared` set equals the scan without it. -/
lemma detect_eq_simple (F : Fuzz) (cfg : DetectionConfig) (df : List VoterRecord) :
    detect_duplicates F cfg df = detect_duplicates_simple F cfg df := by
  rw [detect_duplicates, detect_duplicates_simple,
    foldl_stepPair_of_fresh F cfg df (pairIndices df.length) ⟨[], []⟩
      (fun p hp => pairIndices_fst_lt_snd hp) (pairIndices_nodup _)
      (fun p _ => List.not_mem_nil p)]
  simp

lemma mem_detect_iff {F : Fuzz} {cfg : DetectionConfig} {df : List VoterRecord}
    {d : DupRecord} :
    d ∈ detect_duplicates F cfg df ↔ ∃ p ∈ pairIndices df.length,
      process_at F cfg df p = some d := by
  rw [detect_eq_simple, detect_duplicates_simple, List.mem_filterMap]

/-- Inversion for `process_pair`: an emitted row is built from the computed
metrics and the classifier's confidence and reasons. -/
lemma process_pair_inv {F : Fuzz} {cfg : DetectionConfig} {i j : Nat}
    {r1 r2 : VoterRecord} {d : DupRecord}
    (h : process_pair F cfg i j r1 r2 = some d) :
    classify_pair cfg (calculate_name_similarity F r1.Full_Name r2.Full_Name)
        (calculate_dob_difference r1.Date_of_Birth r2.Date_of_Birth)
        (if cfg.check_addr then calculate_address_similarity F r1.Address r2.Address
          else 0) = some (d.Confidence_Score, d.Detection_Reasons) ∧
      d.Record_1_Index = i ∧ d.Record_2_Index = j ∧
      d.Name_Similarity = calculate_name_similarity F r1.Full_Name r2.Full_Name ∧
      d.DOB_Difference_Days =
        calculate_dob_difference r1.Date_of_Birth r2.Date_of_Birth ∧
      d.Address_Similarity = (if cfg.check_addr then
        calculate_address_similarity F r1.Address r2.Address else 0) := by
  rw [process_pair] at h
  cases hc : classify_pair cfg
      (calculate_name_similarity F r1.Full_Name r2.Full_Name)
      (calculate_dob_difference r1.Date_of_Birth r2.Date_of_Birth)
      (if cfg.check_addr then calculate_address_similarity F r1.Address r2.Address
        else 0) with
  | none => rw [hc] at h; exact absurd h (by simp)
  | some v =>
    rw [hc] at h
    obtain ⟨c, rs⟩ := v
    cases h
    exact ⟨rfl, rfl, rfl, rfl, rfl, rfl⟩

/-- Inversion for `classify_pair`: exactly one tier produced the output,
and the top-level gate passed. -/
lemma classify_pair_cases {cfg : DetectionConfig} {ns : ℚ} {dd : ℤ} {as c : ℚ}
    {rs : List Reason} (h : classify_pair cfg ns dd as = some (c, rs)) :
    cfg.name_threshold ≤ ns ∧
      ((95 ≤ ns ∧ c = ns ∧ rs = [Reason.highName ns]) ∨
        (ns < 95 ∧ dd ≤ cfg.dob_tolerance_days ∧
          c = (ns + (100 - (dd : ℚ) / 365 * 100)) / 2 ∧
          rs = [Reason.nameSim ns, Reason.dobDiff dd]) ∨
        (ns < 95 ∧ ¬ dd ≤ cfg.dob_tolerance_days ∧ cfg.check_addr = true ∧
          cfg.addr_threshold ≤ as ∧ c = (ns + as) / 2 ∧
          rs = [Reason.nameSim ns, Reason.addrSim as])) := by
  rw [classify_pair] at h
  split_ifs at h with h1 h2 h3 h4
  · simp only [Option.some.injEq, Prod.mk.injEq] at h
    obtain ⟨rfl, rfl⟩ := h
    exact ⟨not_lt.1 h1, Or.inl ⟨h2, rfl, rfl⟩⟩
  · simp only [Option.some.injEq, Prod.mk.injEq] at h
    obtain ⟨rfl, rfl⟩ := h
    exact ⟨not_lt.1 h1, Or.inr (Or.inl ⟨not_le.1 h2, h3.2, rfl, rfl⟩)⟩
  · simp only [Option.some.injEq, Prod.mk.injEq] at h
    obtain ⟨rfl, rfl⟩ := h
    exact ⟨not_lt.1 h1, Or.inr (Or.inr ⟨not_le.1 h2,
      fun hdd => h3 ⟨not_lt.1 h1, hdd⟩, h4.2.1, h4.2.2, rfl, rfl⟩)⟩

/-- Firing condition of the classifier: some tier fires iff the gate passes
and at least one tier condition holds (the tiers' own `name_sim ≥ threshold`
conjuncts are subsumed by the gate). -/
lemma classify_pair_isSome_iff {cfg : DetectionConfig} {ns : ℚ} {dd : ℤ}
    {as : ℚ} :
    (classify_pair cfg ns dd as).isSome = true ↔
      cfg.name_threshold ≤ ns ∧ (95 ≤ ns ∨ dd ≤ cfg.dob_tolerance_days ∨
        (cfg.check_addr = true ∧ cfg.addr_threshold ≤ as)) := by
  rw [classify_pair]
  split_ifs with h1 h2 h3 h4
  · refine iff_of_false (by simp) ?_
    rintro ⟨hT, -⟩
    exact absurd (lt_of_lt_of_le h1 hT) (lt_irrefl _)
  · exact iff_of_true (by simp) ⟨not_lt.1 h1, Or.inl h2⟩
  · exact iff_of_true (by simp) ⟨not_lt.1 h1, Or.inr (Or.inl h3.2)⟩
  · exact iff_of_true (by simp) ⟨not_lt.1 h1, Or.inr (Or.inr ⟨h4.2.1, h4.2.2⟩)⟩
  · refine iff_of_false (by simp) ?_
    rintro ⟨hT, hor⟩
    rcases hor with h | h | h
    · exact h2 h
    · exact h3 ⟨hT, h⟩
    · exact h4 ⟨hT, h.1, h.2⟩

/-! ### Properties of the fuzz primitives -/

lemma name_similarity_nonneg_le {F : Fuzz} (hF : F.Bounded)
    (n1 n2 : Option String) :
    0 ≤ calculate_name_similarity F n1 n2 ∧
      calculate_name_similarity F n1 n2 ≤ 100 := by
  cases n1 with
  | none => simp [calculate_name_similarity]
  | some a =>
    cases n2 with
    | none => simp [calculate_name_similarity]
    | some b =>
      obtain ⟨⟨hr0, hr1⟩, ⟨hp0, hp1⟩, ⟨hs0, hs1⟩, ⟨ht0, ht1⟩⟩ :=
        hF (pyUpper (pyStrip a)) (pyUpper (pyStrip b))
      rw [calculate_name_similarity]
      constructor <;> [nlinarith; nlinarith]

lemma address_similarity_nonneg_le {F : Fuzz} (hF : F.Bounded)
    (a1 a2 : Option String) :
    0 ≤ calculate_address_similarity F a1 a2 ∧
      calculate_address_similarity F a1 a2 ≤ 100 := by
  cases a1 with
  | none => simp [calculate_address_similarity]
  | some a =>
    cases a2 with
    | none => simp [calculate_address_similarity]
    | some b =>
      obtain ⟨_, _, _, ⟨ht0, ht1⟩⟩ := hF (pyUpper (pyStrip a)) (pyUpper (pyStrip b))
      rw [calculate_address_similarity]
      exact ⟨ht0, ht1⟩

lemma dob_difference_nonneg (d1 d2 : Option Int) :
    0 ≤ calculate_dob_difference d1 d2 := by
  cases d1 with
  | none => simp [calculate_dob_difference]
  | some a =>
    cases d2 with
    | none => simp [calculate_dob_difference]
    | some b => exact abs_nonneg _

lemma fuzzEq_bounded : fuzzEq.Bounded := by
  intro a b
  simp only [fuzzEq]
  refine ⟨⟨?_, ?_⟩, ⟨?_, ?_⟩, ⟨?_, ?_⟩, ⟨?_, ?_⟩⟩ <;> split_ifs <;> norm_num

lemma fuzzEq_symm : fuzzEq.Symm := by
  intro a b
  refine ⟨?_, ?_, ?_, ?_⟩ <;> simp [fuzzEq, eq_comm]


/-- With at least two rows the first visited pair is `(0, 1)`. -/
lemma pairIndices_head (k : Nat) :
    ∃ tl, pairIndices (k + 2) = (0, 1) :: tl := by
  have h1 : List.range (k + 2) = 0 :: List.map Nat.succ (List.range (k + 1)) :=
    List.range_succ_eq_map (k + 1)
  have h2 : k + 2 - 1 = k + 1 := by omega
  refine ⟨(List.range' 2 k).map (fun j => (0, j)) ++
    (List.map Nat.succ (List.range (k + 1))).flatMap
      (fun i => (List.range' (i + 1) (k + 2 - (i + 1))).map fun j => (i, j)), ?_⟩
  rw [pairIndices, h1, List.flatMap_cons, h2, List.range'_succ, List.map_cons]
  rfl

lemma fuzzFull_bounded : fuzzFull.Bounded := by
  intro a b
  norm_num [fuzzFull, constFuzz]

/-- Mapping each kept element back to its source turns a `filterMap` into a
sublist of the input. -/
lemma filterMap_map_sublist {α β : Type} (f : α → Option β) (g : β → α)
    (hfg : ∀ a b, f a = some b → g b = a) :
    ∀ l : List α, ((l.filterMap f).map g).Sublist l := by
  intro l
  induction l with
  | nil => simp
  | cons a l ih =>
    cases hfa : f a with
    | none =>
      rw [List.filterMap_cons_none hfa]
      exact ih.cons a
    | some b =>
      rw [List.filterMap_cons_some hfa, List.map_cons, hfg a b hfa]
      exact ih.cons₂ a

/-- If every row kept by `f` is also kept (identically) by `g`, `f` keeps at
most as many rows. -/
lemma length_filterMap_le_of_imp {α β : Type} (f g : α → Option β)
    (h : ∀ a b, f a = some b → g a = some b) (l : List α) :
    (l.filterMap f).length ≤ (l.filterMap g).length := by
  induction l with
  | nil => simp
  | cons a l ih =>
    cases hfa : f a with
    | none =>
      rw [List.filterMap_cons_none hfa]
      cases hga : g a with
      | none => rw [List.filterMap_cons_none hga]; exact ih
      | some c =>
        rw [List.filterMap_cons_some hga, List.length_cons]
        exact ih.trans (Nat.le_succ _)
    | some b =>
      rw [List.filterMap_cons_some hfa, List.filterMap_cons_some (h a b hfa),
        List.length_cons, List.length_cons]
      exact Nat.succ_le_succ ih

/-- If every Tier-3 row kept by `f` is also kept (identically) by `g`, `f`
keeps at most as many Tier-3 rows. -/
lemma tier3_length_le_of_imp {α : Type} (f g : α → Option DupRecord)
    (h : ∀ a d, f a = some d → isTier3 d = true → g a = some d) (l : List α) :
    ((l.filterMap f).filter (fun d => isTier3 d)).length ≤
      ((l.filterMap g).filter (fun d => isTier3 d)).length := by
  induction l with
  | nil => simp
  | cons a l ih =>
    have hgrow : ((l.filterMap g).filter (fun d => isTier3 d)).length ≤
        (((a :: l).filterMap g).filter (fun d => isTier3 d)).length := by
      cases hga : g a with
      | none => rw [List.filterMap_cons_none hga]
      | some c =>
        rw [List.filterMap_cons_some hga, List.filter_cons]
        split_ifs with hc
        · rw [List.length_cons]; exact Nat.le_succ _
        · exact le_refl _
    cases hfa : f a with
    | none =>
      rw [List.filterMap_cons_none hfa]
      exact ih.trans hgrow
    | some d =>
      rw [List.filterMap_cons_some hfa, List.filter_cons]
      split_ifs with hd
      · rw [List.filterMap_cons_some (h a d hfa hd), List.filter_cons, if_pos hd,
          List.length_cons, List.length_cons]
        exact Nat.succ_le_succ ih
      · exact ih.trans hgrow

/-- Raising the name threshold can only remove flagged pairs: whatever the
classifier emits under the raised threshold it also emits, unchanged, under
the original one. -/
lemma classify_pair_name_threshold_mono {cfg : DetectionConfig} {T ns : ℚ}
    {dd : ℤ} {as : ℚ} {v : ℚ × List Reason} (hT : cfg.name_threshold ≤ T)
    (h : classify_pair { cfg with name_threshold := T } ns dd as = some v) :
    classify_pair cfg ns dd as = some v := by
  rw [classify_pair] at h ⊢
  by_cases h1 : ns < T
  · rw [if_pos h1] at h
    exact absurd h (by simp)
  · rw [if_neg h1] at h
    have h1' : ¬ ns < cfg.name_threshold :=
      fun hc => h1 (lt_of_lt_of_le hc hT)
    rw [if_neg h1']
    by_cases h2 : 95 ≤ ns
    · rw [if_pos h2] at h ⊢
      exact h
    · rw [if_neg h2] at h ⊢
      by_cases hdd : dd ≤ cfg.dob_tolerance_days
      · rw [if_pos ⟨not_lt.1 h1, hdd⟩] at h
        rw [if_pos ⟨not_lt.1 h1', hdd⟩]
        exact h
      · rw [if_neg (fun hc => hdd hc.2)] at h
        rw [if_neg (fun hc => hdd hc.2)]
        by_cases h4 : cfg.check_addr = true ∧ cfg.addr_threshold ≤ as
        · rw [if_pos ⟨not_lt.1 h1, h4.1, h4.2⟩] at h
          rw [if_pos ⟨not_lt.1 h1', h4.1, h4.2⟩]
          exact h
        · rw [if_neg (fun hc => h4 ⟨hc.2.1, hc.2.2⟩)] at h
          exact absurd h (by simp)

/-- Lowering the address threshold preserves every Tier-3 flag, unchanged. -/
lemma classify_pair_addr_threshold_mono {cfg : DetectionConfig} {A ns : ℚ}
    {dd : ℤ} {as c : ℚ} {rs : List Reason} (hA : A ≤ cfg.addr_threshold)
    (h : classify_pair cfg ns dd as = some (c, rs))
    (h3 : isTier3 ⟨0, 0, none, none, none, none, none, none, none, none,
      0, 0, 0, c, rs⟩ = true) :
    classify_pair { cfg with addr_threshold := A } ns dd as = some (c, rs) := by
  obtain ⟨hT, hcase⟩ := classify_pair_cases h
  rcases hcase with ⟨-, -, hrs⟩ | ⟨-, -, -, hrs⟩ | ⟨h95, hdd, -, has, hc, hrs⟩
  · rw [hrs] at h3
    exact absurd h3 (by simp [isTier3])
  · rw [hrs] at h3
    exact absurd h3 (by simp [isTier3])
  · rw [classify_pair, if_neg (not_lt.2 hT), if_neg (not_le.2 h95),
      if_neg (fun hcon => hdd hcon.2)]
    rcases h with h
    rw [classify_pair, if_neg (not_lt.2 hT), if_neg (not_le.2 h95),
      if_neg (fun hcon => hdd hcon.2)] at h
    split_ifs at h with hcon
    rw [if_pos ⟨hT, hcon.2.1, le_trans hA hcon.2.2⟩]
    exact h

/-- Loop-body version of `classify_pair_name_threshold_mono`. -/
lemma process_pair_name_threshold_mono {F : Fuzz} {cfg : DetectionConfig} {T : ℚ}
    {i j : Nat} {r1 r2 : VoterRecord} {d : DupRecord} (hT : cfg.name_threshold ≤ T)
    (h : process_pair F { cfg with name_threshold := T } i j r1 r2 = some d) :
    process_pair F cfg i j r1 r2 = some d := by
  rw [process_pair] at h ⊢
  cases hc : classify_pair { cfg with name_threshold := T }
      (calculate_name_similarity F r1.Full_Name r2.Full_Name)
      (calculate_dob_difference r1.Date_of_Birth r2.Date_of_Birth)
      (if cfg.check_addr then calculate_address_similarity F r1.Address r2.Address
        else 0) with
  | none => rw [hc] at h; exact absurd h (by simp)
  | some v =>
    rw [hc] at h
    rw [classify_pair_name_threshold_mono hT hc]
    exact h

/-- Loop-body version of `classify_pair_addr_threshold_mono`. -/
lemma process_pair_addr_threshold_mono {F : Fuzz} {cfg : DetectionConfig} {A : ℚ}
    {i j : Nat} {r1 r2 : VoterRecord} {d : DupRecord} (hA : A ≤ cfg.addr_threshold)
    (h : process_pair F cfg i j r1 r2 = some d) (h3 : isTier3 d = true) :
    process_pair F { cfg with addr_threshold := A } i j r1 r2 = some d := by
  rw [process_pair] at h ⊢
  cases hc : classify_pair cfg
      (calculate_name_similarity F r1.Full_Name r2.Full_Name)
      (calculate_dob_difference r1.Date_of_Birth r2.Date_of_Birth)
      (if cfg.check_addr then calculate_address_similarity F r1.Address r2.Address
        else 0) with
  | none => rw [hc] at h; exact absurd h (by simp)
  | some v =>
    rw [hc] at h
    obtain ⟨c, rs⟩ := v
    cases h
    rw [classify_pair_addr_threshold_mono hA hc h3]

/-! ### The claims -/

/-- C10: in the nested `i < j` loops every canonical pair key is fresh, so
the runtime `compared` set's skip branch is never taken: the enumerated keys
are pairwise distinct, and the scan equals the scan with the compared-set
and skip check removed, emitting the same row sequence for every input and
configuration. -/
theorem claim10_theorem (F : Fuzz) (cfg : DetectionConfig) (df : List VoterRecord) :
    (pairIndices df.length).Nodup ∧
      detect_duplicates F cfg df = detect_duplicates_simple F cfg df :=
  ⟨pairIndices_nodup _, detect_eq_simple F cfg df⟩

/-- C5: the scan classifies each unordered pair of distinct positions
exactly once (the enumerated pairs are precisely the `i < j < n` pairs, with
no repetition), every emitted row is canonically ordered with
`Record_1_Index < Record_2_Index` (hence no self-pair), and no two emitted
rows reference the same unordered pair. -/
theorem claim5_theorem (F : Fuzz) (cfg : DetectionConfig) (df : List VoterRecord) :
    (∀ d ∈ detect_duplicates F cfg df, d.Record_1_Index < d.Record_2_Index) ∧
      ((detect_duplicates F cfg df).map
        (fun d => (d.Record_1_Index, d.Record_2_Index))).Nodup ∧
      (∀ i j : Nat, (i, j) ∈ pairIndices df.length ↔ i < j ∧ j < df.length) ∧
      (pairIndices df.length).Nodup := by
  have hback : ∀ p d, process_at F cfg df p = some d →
      (fun d => (d.Record_1_Index, d.Record_2_Index)) d = p := by
    intro p d hpd
    rw [process_at] at hpd
    obtain ⟨-, h1, h2, -, -, -⟩ := process_pair_inv hpd
    simp [h1, h2]
  refine ⟨?_, ?_, fun i j => mem_pairIndices, pairIndices_nodup _⟩
  · intro d hd
    obtain ⟨p, hp, hpd⟩ := mem_detect_iff.1 hd
    have hip := hback p d hpd
    have hlt := pairIndices_fst_lt_snd hp
    rw [← hip] at hlt
    simpa using hlt
  · rw [detect_eq_simple, detect_duplicates_simple]
    exact (filterMap_map_sublist _ _ hback _).nodup (pairIndices_nodup _)

/-- C1, counterexample: a pair whose name similarity is 96 (at least 95, so
the claim says Tier 1 must flag it under every configuration) is not flagged
at all when `nameThreshold` is 97: the top-level gate rejects it before any
tier is evaluated, so Tier 1 does not bypass the `nameThreshold` gate. -/
theorem claim1_counterexample :
    95 ≤ calculate_name_similarity fuzzNear rRavi.Full_Name rRaviTypo.Full_Name ∧
      configInRange cfgGate ∧
      detect_duplicates fuzzNear cfgGate [rRavi, rRaviTypo] = [] := by
  refine ⟨?_, ?_, ?_⟩
  · norm_num [calculate_name_similarity, fuzzNear, constFuzz, rRavi, rRaviTypo]
  · norm_num [configInRange, cfgGate]
  · norm_num [detect_duplicates, show pairIndices 2 = [(0, 1)] from rfl, stepPair,
      process_at, process_pair, calculate_name_similarity, calculate_dob_difference,
      calculate_address_similarity, classify_pair, fuzzNear, constFuzz, cfgGate,
      rRavi, rRaviTypo]

/-- C1 (amended): Tier 1 flags a pair with confidence equal to the name
similarity and the single high-name-similarity reason — with the DOB and
address values irrelevant to the decision — whenever the name similarity is
at least 95 AND at least `nameThreshold`; the gate is evaluated first, and a
pair with `nameSimilarity < nameThreshold` is rejected even when its name
similarity reaches Tier 1's bar of 95. -/
theorem claim1_theorem (F : Fuzz) (cfg : DetectionConfig) (i j : Nat)
    (r1 r2 : VoterRecord)
    (h95 : 95 ≤ calculate_name_similarity F r1.Full_Name r2.Full_Name)
    (hT : cfg.name_threshold ≤ calculate_name_similarity F r1.Full_Name r2.Full_Name) :
    process_pair F cfg i j r1 r2 = some
      { Record_1_Index := i, Record_2_Index := j
        Voter_ID_1 := r1.Voter_ID, Voter_ID_2 := r2.Voter_ID
        Name_1 := r1.Full_Name, Name_2 := r2.Full_Name
        DOB_1 := r1.Date_of_Birth, DOB_2 := r2.Date_of_Birth
        Address_1 := r1.Address, Address_2 := r2.Address
        Name_Similarity := calculate_name_similarity F r1.Full_Name r2.Full_Name
        DOB_Difference_Days := calculate_dob_difference r1.Date_of_Birth r2.Date_of_Birth
        Address_Similarity := if cfg.check_addr then
          calculate_address_similarity F r1.Address r2.Address else 0
        Confidence_Score := calculate_name_similarity F r1.Full_Name r2.Full_Name
        Detection_Reasons :=
          [Reason.highName (calculate_name_similarity F r1.Full_Name r2.Full_Name)] } := by
  simp only [process_pair, classify_pair, if_neg (not_lt.2 hT), if_pos h95]

/-- Witness for C1: at the default threshold 85 the same 96-similarity pair
is flagged by Tier 1 with confidence 96 and the single high-name reason. -/
theorem claim1_witness :
    process_pair fuzzNear cfg85 0 1 rRavi rRaviTypo = some
      { Record_1_Index := 0, Record_2_Index := 1
        Voter_ID_1 := some "V001", Voter_ID_2 := some "V002"
        Name_1 := some "RAVI KUMAR", Name_2 := some "RAVI KUMARR"
        DOB_1 := some 7500, DOB_2 := some 7500
        Address_1 := some "12 MG ROAD", Address_2 := some "12 MG ROAD"
        Name_Similarity := 96, DOB_Difference_Days := 0, Address_Similarity := 95
        Confidence_Score := 96, Detection_Reasons := [Reason.highName 96] } := by
  rw [claim1_theorem fuzzNear cfg85 0 1 rRavi rRaviTypo
    (by norm_num [calculate_name_similarity, fuzzNear, constFuzz, rRavi, rRaviTypo])
    (by norm_num [calculate_name_similarity, fuzzNear, constFuzz, cfg85, rRavi, rRaviTypo])]
  norm_num [calculate_name_similarity, calculate_dob_difference,
    calculate_address_similarity, fuzzNear, constFuzz, cfg85, rRavi, rRaviTypo]

/-- C3: for a pair with name similarity below 95 but at least
`nameThreshold` and DOB difference within tolerance, Tier 2 flags it with
confidence exactly `(nameSim + (100 − dobDiff/365×100)) / 2` and reasons
carrying both the name-similarity value and the DOB-difference value. -/
theorem claim3_theorem (F : Fuzz) (cfg : DetectionConfig) (i j : Nat)
    (r1 r2 : VoterRecord)
    (h95 : calculate_name_similarity F r1.Full_Name r2.Full_Name < 95)
    (hT : cfg.name_threshold ≤ calculate_name_similarity F r1.Full_Name r2.Full_Name)
    (hdob : calculate_dob_difference r1.Date_of_Birth r2.Date_of_Birth ≤
      cfg.dob_tolerance_days) :
    process_pair F cfg i j r1 r2 = some
      { Record_1_Index := i, Record_2_Index := j
        Voter_ID_1 := r1.Voter_ID, Voter_ID_2 := r2.Voter_ID
        Name_1 := r1.Full_Name, Name_2 := r2.Full_Name
        DOB_1 := r1.Date_of_Birth, DOB_2 := r2.Date_of_Birth
        Address_1 := r1.Address, Address_2 := r2.Address
        Name_Similarity := calculate_name_similarity F r1.Full_Name r2.Full_Name
        DOB_Difference_Days := calculate_dob_difference r1.Date_of_Birth r2.Date_of_Birth
        Address_Similarity := if cfg.check_addr then
          calculate_address_similarity F r1.Address r2.Address else 0
        Confidence_Score := (calculate_name_similarity F r1.Full_Name r2.Full_Name +
          (100 - ((calculate_dob_difference r1.Date_of_Birth r2.Date_of_Birth : ℤ) : ℚ) /
            365 * 100)) / 2
        Detection_Reasons :=
          [Reason.nameSim (calculate_name_similarity F r1.Full_Name r2.Full_Name),
            Reason.dobDiff (calculate_dob_difference r1.Date_of_Birth r2.Date_of_Birth)] } := by
  have hcond : cfg.name_threshold ≤ calculate_name_similarity F r1.Full_Name r2.Full_Name ∧
      calculate_dob_difference r1.Date_of_Birth r2.Date_of_Birth ≤
        cfg.dob_tolerance_days := ⟨hT, hdob⟩
  simp only [process_pair, classify_pair, if_neg (not_lt.2 hT), if_neg (not_le.2 h95),
    if_pos hcond]

/-- Witness for C3: name similarity 90 (below 95, above threshold 85) and a
10-day DOB gap within the 30-day tolerance yield confidence
`(90 + (100 − 10/365×100))/2 = 6835/73` with both reasons recorded. -/
theorem claim3_witness :
    process_pair fuzzNinety cfg85 0 1 rAsha rAshaTypo = some
      { Record_1_Index := 0, Record_2_Index := 1
        Voter_ID_1 := some "V003", Voter_ID_2 := some "V004"
        Name_1 := some "ASHA DEVI", Name_2 := some "ASHA DEVII"
        DOB_1 := some 100, DOB_2 := some 110
        Address_1 := some "7 PARK ST", Address_2 := some "7 PARK ST"
        Name_Similarity := 90, DOB_Difference_Days := 10, Address_Similarity := 90
        Confidence_Score := 6835 / 73
        Detection_Reasons := [Reason.nameSim 90, Reason.dobDiff 10] } := by
  rw [claim3_theorem fuzzNinety cfg85 0 1 rAsha rAshaTypo
    (by norm_num [calculate_name_similarity, fuzzNinety, constFuzz, rAsha, rAshaTypo])
    (by norm_num [calculate_name_similarity, fuzzNinety, constFuzz, cfg85, rAsha, rAshaTypo])
    (by norm_num [calculate_dob_difference, cfg85, rAsha, rAshaTypo])]
  norm_num [calculate_name_similarity, calculate_dob_difference,
    calculate_address_similarity, fuzzNinety, constFuzz, cfg85, rAsha, rAshaTypo]

/-- C7: for a fixed record set and otherwise-fixed configuration, raising
`nameThreshold` never increases the total number of flagged pairs, and
lowering `addressThreshold` never decreases the number of Tier-3 flags. -/
theorem claim7_theorem (F : Fuzz) (df : List VoterRecord) (cfg : DetectionConfig)
    (T A : ℚ) (hT : cfg.name_threshold ≤ T) (hA : A ≤ cfg.addr_threshold) :
    (detect_duplicates F { cfg with name_threshold := T } df).length ≤
        (detect_duplicates F cfg df).length ∧
      tier3Count (detect_duplicates F cfg df) ≤
        tier3Count (detect_duplicates F { cfg with addr_threshold := A } df) := by
  constructor
  · simp only [detect_eq_simple, detect_duplicates_simple]
    exact length_filterMap_le_of_imp _ _
      (fun p d h => process_pair_name_threshold_mono hT h) _
  · simp only [detect_eq_simple, detect_duplicates_simple, tier3Count]
    exact tier3_length_le_of_imp _ _
      (fun p d h h3 => process_pair_addr_threshold_mono hA h h3) _

/-- Witness for C7: raising the name threshold from 85 to 90 and lowering
the address threshold from 70 to 60 on a concrete two-record set. -/
theorem claim7_witness :
    (detect_duplicates fuzzFull { cfg85 with name_threshold := 90 }
        [rRavi, rRaviTypo]).length ≤
      (detect_duplicates fuzzFull cfg85 [rRavi, rRaviTypo]).length ∧
    tier3Count (detect_duplicates fuzzFull cfg85 [rRavi, rRaviTypo]) ≤
      tier3Count (detect_duplicates fuzzFull { cfg85 with addr_threshold := 60 }
        [rRavi, rRaviTypo]) :=
  claim7_theorem fuzzFull [rRavi, rRaviTypo] cfg85 90 60
    (by norm_num [cfg85]) (by norm_num [cfg85])

/-- C4, counterexample: the claim's existentials are impossible — with every
configuration option inside its documented range and the name-similarity
metric inside its documented [0, 100] range, Tier 2 never yields a
confidence below 0 nor above 100, because the Tier-2 gate
`dobDifferenceDays ≤ dobToleranceDays ≤ 365` rules out the above-365-day
gap the claim relies on. -/
theorem claim4_counterexample :
    ¬ ∃ (cfg : DetectionConfig) (ns as : ℚ) (d1 d2 : Option Int) (c : ℚ)
      (rs : List Reason),
      configInRange cfg ∧ 0 ≤ ns ∧ ns ≤ 100 ∧
        classify_pair cfg ns (calculate_dob_difference d1 d2) as = some (c, rs) ∧
        Reason.dobDiff (calculate_dob_difference d1 d2) ∈ rs ∧
        (c < 0 ∨ 100 < c) := by
  rintro ⟨cfg, ns, as, d1, d2, c, rs, hcfg, hns0, hns1, hcls, hmem, hbad⟩
  obtain ⟨hT, hcase⟩ := classify_pair_cases hcls
  have hdd0 : (0 : ℤ) ≤ calculate_dob_difference d1 d2 := dob_difference_nonneg d1 d2
  rcases hcase with ⟨-, -, hrs⟩ | ⟨-, hdle, hc, hrs⟩ | ⟨-, -, -, -, -, hrs⟩
  · rw [hrs] at hmem
    simp at hmem
  · have h365 : calculate_dob_difference d1 d2 ≤ 365 := le_trans hdle hcfg.2.2.2.1
    have hcast : ((calculate_dob_difference d1 d2 : ℤ) : ℚ) ≤ 365 := by exact_mod_cast h365
    have hcast0 : (0 : ℚ) ≤ ((calculate_dob_difference d1 d2 : ℤ) : ℚ) := by
      exact_mod_cast hdd0
    have hq : ((calculate_dob_difference d1 d2 : ℤ) : ℚ) / 365 * 100 ≤ 100 := by
      rw [div_mul_eq_mul_div, div_le_iff₀ (by norm_num : (0 : ℚ) < 365)]
      nlinarith
    have hq0 : 0 ≤ ((calculate_dob_difference d1 d2 : ℤ) : ℚ) / 365 * 100 := by positivity
    rcases hbad with hb | hb <;> rw [hc] at hb <;> linarith
  · rw [hrs] at hmem
    simp at hmem

/-- C4 (amended): with bounded metrics and an in-range configuration, every
emitted row's confidence lies in [0, 100]; in particular `0 ≤ confidence`
always holds and neither a negative Tier-2 value nor any value above 100 is
reachable. -/
theorem claim4_theorem (F : Fuzz) (cfg : DetectionConfig) (df : List VoterRecord)
    (hF : F.Bounded) (hcfg : configInRange cfg) :
    ∀ d ∈ detect_duplicates F cfg df,
      0 ≤ d.Confidence_Score ∧ d.Confidence_Score ≤ 100 := by
  intro d hd
  obtain ⟨p, hp, hpd⟩ := mem_detect_iff.1 hd
  rw [process_at] at hpd
  obtain ⟨hcls, -, -, -, -, -⟩ := process_pair_inv hpd
  obtain ⟨hns0, hns1⟩ := name_similarity_nonneg_le hF
    (df.getD p.1 defaultRecord).Full_Name (df.getD p.2 defaultRecord).Full_Name
  have haddr : 0 ≤ (if cfg.check_addr then calculate_address_similarity F
        (df.getD p.1 defaultRecord).Address (df.getD p.2 defaultRecord).Address
        else 0) ∧
      (if cfg.check_addr then calculate_address_similarity F
        (df.getD p.1 defaultRecord).Address (df.getD p.2 defaultRecord).Address
        else 0) ≤ 100 := by
    split_ifs
    · exact address_similarity_nonneg_le hF _ _
    · norm_num
  have hdd0 : (0 : ℤ) ≤ calculate_dob_difference
      (df.getD p.1 defaultRecord).Date_of_Birth
      (df.getD p.2 defaultRecord).Date_of_Birth := dob_difference_nonneg _ _
  obtain ⟨hT, hcase⟩ := classify_pair_cases hcls
  rcases hcase with ⟨-, hc, -⟩ | ⟨-, hdle, hc, -⟩ | ⟨-, -, -, -, hc, -⟩
  · rw [hc]
    exact ⟨hns0, hns1⟩
  · have h365 : calculate_dob_difference (df.getD p.1 defaultRecord).Date_of_Birth
        (df.getD p.2 defaultRecord).Date_of_Birth ≤ 365 :=
      le_trans hdle hcfg.2.2.2.1
    have hcast : ((calculate_dob_difference (df.getD p.1 defaultRecord).Date_of_Birth
        (df.getD p.2 defaultRecord).Date_of_Birth : ℤ) : ℚ) ≤ 365 := by
      exact_mod_cast h365
    have hcast0 : (0 : ℚ) ≤ ((calculate_dob_difference
        (df.getD p.1 defaultRecord).Date_of_Birth
        (df.getD p.2 defaultRecord).Date_of_Birth : ℤ) : ℚ) := by
      exact_mod_cast hdd0
    have hq : ((calculate_dob_difference (df.getD p.1 defaultRecord).Date_of_Birth
        (df.getD p.2 defaultRecord).Date_of_Birth : ℤ) : ℚ) / 365 * 100 ≤ 100 := by
      rw [div_mul_eq_mul_div, div_le_iff₀ (by norm_num : (0 : ℚ) < 365)]
      nlinarith
    have hq0 : 0 ≤ ((calculate_dob_difference
        (df.getD p.1 defaultRecord).Date_of_Birth
        (df.getD p.2 defaultRecord).Date_of_Birth : ℤ) : ℚ) / 365 * 100 := by
      positivity
    rw [hc]
    constructor <;> linarith
  · rw [hc]
    constructor <;> [linarith [haddr.1, hns0]; linarith [haddr.2, hns1]]

/-- Witness for C4: the flagged near-identical pair under the default
configuration has confidence 100, inside [0, 100]. -/
theorem claim4_witness :
    0 ≤ dupRavi.Confidence_Score ∧ dupRavi.Confidence_Score ≤ 100 :=
  claim4_theorem fuzzFull cfg85 [rRavi, rRaviTypo] fuzzFull_bounded
    (by norm_num [configInRange, cfg85]) dupRavi
    (by norm_num [detect_duplicates, show pairIndices 2 = [(0, 1)] from rfl, stepPair,
      process_at, process_pair, calculate_name_similarity, calculate_dob_difference,
      calculate_address_similarity, classify_pair, fuzzFull, constFuzz, cfg85,
      rRavi, rRaviTypo, dupRavi])

/-- C6, counterexample: with address matching disabled the scan still flags
pairs, and the address similarity it records is the plain value 0 — exactly
the value a genuinely computed comparison of two dissimilar addresses also
produces — so the "not computed" state is not distinguishable from a
computed similarity in [0, 100]. -/
theorem claim6_counterexample :
    (detect_duplicates fuzzEq cfgNoAddr [rSunitaA, rSunitaB]).map
        DupRecord.Address_Similarity = [0] ∧
      calculate_address_similarity fuzzEq rSunitaA.Address rSunitaB.Address = 0 := by
  constructor
  · norm_num [detect_duplicates, show pairIndices 2 = [(0, 1)] from rfl, stepPair,
      process_at, process_pair, calculate_name_similarity, calculate_dob_difference,
      classify_pair, fuzzEq, cfgNoAddr, rSunitaA, rSunitaB,
      show pyUpper (pyStrip "SUNITA RAO") = "SUNITA RAO" from rfl]
  · decide

/-- C6 (amended): when address matching is disabled Tier 3 never fires and
the address metric never influences the outcome, but the recorded address
similarity of every emitted row is the plain value 0, not a distinguishable
"not computed" sentinel. -/
theorem claim6_theorem (F : Fuzz) (cfg : DetectionConfig) (df : List VoterRecord)
    (h : cfg.check_addr = false) :
    ∀ d ∈ detect_duplicates F cfg df,
      d.Address_Similarity = 0 ∧ isTier3 d = false := by
  intro d hd
  obtain ⟨p, hp, hpd⟩ := mem_detect_iff.1 hd
  rw [process_at] at hpd
  obtain ⟨hcls, -, -, -, -, haddr⟩ := process_pair_inv hpd
  rw [h] at hcls haddr
  simp only [Bool.false_eq_true, if_false] at hcls haddr
  refine ⟨haddr, ?_⟩
  obtain ⟨-, hcase⟩ := classify_pair_cases hcls
  rcases hcase with ⟨-, -, hrs⟩ | ⟨-, -, -, hrs⟩ | ⟨-, -, hck, -, -, -⟩
  · simp [isTier3, hrs]
  · simp [isTier3, hrs]
  · rw [h] at hck
    exact absurd hck (by simp)

/-- Witness for C6: the pair flagged with address matching off records
address similarity 0 and was not flagged by Tier 3. -/
theorem claim6_witness :
    dupSunita.Address_Similarity = 0 ∧ isTier3 dupSunita = false :=
  claim6_theorem fuzzEq cfgNoAddr [rSunitaA, rSunitaB] rfl dupSunita
    (by norm_num [detect_duplicates, show pairIndices 2 = [(0, 1)] from rfl, stepPair,
      process_at, process_pair, calculate_name_similarity, calculate_dob_difference,
      classify_pair, fuzzEq, cfgNoAddr, rSunitaA, rSunitaB, dupSunita,
      show pyUpper (pyStrip "SUNITA RAO") = "SUNITA RAO" from rfl])

/-- C8: the three field metrics are symmetric in their two inputs — name and
address similarity for symmetric fuzz primitives (the library measures
compare their argument pair order-insensitively), and DOB difference
unconditionally. -/
theorem claim8_theorem (F : Fuzz) (hF : F.Symm) (a b : Option String)
    (d1 d2 : Option Int) :
    calculate_name_similarity F a b = calculate_name_similarity F b a ∧
      calculate_address_similarity F a b = calculate_address_similarity F b a ∧
      calculate_dob_difference d1 d2 = calculate_dob_difference d2 d1 := by
  refine ⟨?_, ?_, ?_⟩
  · cases a with
    | none => cases b <;> rfl
    | some x =>
      cases b with
      | none => rfl
      | some y =>
        obtain ⟨h1, h2, h3, h4⟩ := hF (pyUpper (pyStrip x)) (pyUpper (pyStrip y))
        simp only [calculate_name_similarity]
        rw [h1, h2, h3, h4]
  · cases a with
    | none => cases b <;> rfl
    | some x =>
      cases b with
      | none => rfl
      | some y =>
        obtain ⟨-, -, -, h4⟩ := hF (pyUpper (pyStrip x)) (pyUpper (pyStrip y))
        simp only [calculate_address_similarity]
        rw [h4]
  · cases d1 with
    | none => cases d2 <;> rfl
    | some x =>
      cases d2 with
      | none => rfl
      | some y =>
        simp only [calculate_dob_difference]
        exact abs_sub_comm x y

/-- Witness for C8: symmetry at concrete names, addresses and dates. -/
theorem claim8_witness :
    calculate_name_similarity fuzzEq (some "RAVI KUMAR") (some "KUMAR RAVI") =
        calculate_name_similarity fuzzEq (some "KUMAR RAVI") (some "RAVI KUMAR") ∧
      calculate_address_similarity fuzzEq (some "RAVI KUMAR") (some "KUMAR RAVI") =
        calculate_address_similarity fuzzEq (some "KUMAR RAVI") (some "RAVI KUMAR") ∧
      calculate_dob_difference (some 100) (some 250) =
        calculate_dob_difference (some 250) (some 100) :=
  claim8_theorem fuzzEq fuzzEq_symm (some "RAVI KUMAR") (some "KUMAR RAVI")
    (some 100) (some 250)

/-- C9, counterexample: the metrics are total and a missing DOB yields the
999999 sentinel, but such a record is NOT excluded from duplicate pairs —
two records with identical names and missing DOBs are flagged by Tier 1
under the default `nameThreshold` 85 (≥ the documented minimum 50). -/
theorem claim9_counterexample :
    rMeeraA.Date_of_Birth = none ∧ 50 ≤ cfg85.name_threshold ∧
      detect_duplicates fuzzFull cfg85 [rMeeraA, rMeeraB] = [dupMeeraPair] := by
  refine ⟨rfl, by norm_num [cfg85], ?_⟩
  norm_num [detect_duplicates, show pairIndices 2 = [(0, 1)] from rfl, stepPair,
    process_at, process_pair, calculate_name_similarity, calculate_dob_difference,
    calculate_address_similarity, classify_pair, fuzzFull, constFuzz, cfg85,
    rMeeraA, rMeeraB, dupMeeraPair]

/-- C9 (amended): the metrics are total with the documented defaults on
missing input — missing name or address gives similarity 0 on either side,
missing DOB gives the 999999 sentinel — and a record with a MISSING NAME is
never part of any emitted pair once `nameThreshold ≥ 50`; records missing
only their DOB (or address) can still be flagged through Tier 1. -/
theorem claim9_theorem (F : Fuzz) (cfg : DetectionConfig) (df : List VoterRecord)
    (i : Nat) (hT : 50 ≤ cfg.name_threshold)
    (hname : (df.getD i defaultRecord).Full_Name = none) :
    (∀ n2, calculate_name_similarity F none n2 = 0 ∧
      calculate_name_similarity F n2 none = 0) ∧
    (∀ a2, calculate_address_similarity F none a2 = 0 ∧
      calculate_address_similarity F a2 none = 0) ∧
    (∀ dob2, calculate_dob_difference none dob2 = 999999 ∧
      calculate_dob_difference dob2 none = 999999) ∧
    (∀ d ∈ detect_duplicates F cfg df,
      d.Record_1_Index ≠ i ∧ d.Record_2_Index ≠ i) := by
  refine ⟨fun n2 => ⟨rfl, by cases n2 <;> rfl⟩,
    fun a2 => ⟨rfl, by cases a2 <;> rfl⟩,
    fun dob2 => ⟨rfl, by cases dob2 <;> rfl⟩, ?_⟩
  intro d hd
  obtain ⟨p, hp, hpd⟩ := mem_detect_iff.1 hd
  rw [process_at] at hpd
  obtain ⟨hcls, hi1, hi2, -, -, -⟩ := process_pair_inv hpd
  obtain ⟨hTle, -⟩ := classify_pair_cases hcls
  constructor
  · intro heq
    have hpi : p.1 = i := hi1.symm.trans heq
    rw [hpi, hname] at hTle
    rw [show calculate_name_similarity F none
      (df.getD p.2 defaultRecord).Full_Name = 0 from rfl] at hTle
    linarith
  · intro heq
    have hpi : p.2 = i := hi2.symm.trans heq
    rw [hpi, hname] at hTle
    have h0 : calculate_name_similarity F
        (df.getD p.1 defaultRecord).Full_Name none = 0 := by
      cases (df.getD p.1 defaultRecord).Full_Name <;> rfl
    rw [h0] at hTle
    linarith

/-- Witness for C9: with a nameless record at position 0 and two matching
records behind it, the only emitted pair references positions 1 and 2. -/
theorem claim9_witness :
    calculate_name_similarity fuzzFull none (some "MEERA JOSHI") = 0 ∧
      dupMeera.Record_1_Index ≠ 0 ∧ dupMeera.Record_2_Index ≠ 0 :=
  ⟨((claim9_theorem fuzzFull cfg85 [rNoName, rMeeraA, rMeeraB] 0
      (by norm_num [cfg85]) rfl).1 (some "MEERA JOSHI")).1,
    (claim9_theorem fuzzFull cfg85 [rNoName, rMeeraA, rMeeraB] 0
      (by norm_num [cfg85]) rfl).2.2.2 dupMeera
      (by norm_num [detect_duplicates,
        show pairIndices 3 = [(0, 1), (0, 2), (1, 2)] from rfl, stepPair,
        process_at, process_pair, calculate_name_similarity,
        calculate_dob_difference, calculate_address_similarity, classify_pair,
        fuzzFull, constFuzz, cfg85, rNoName, rMeeraA, rMeeraB, dupMeera])⟩

/-- C2, counterexample: on a two-row table missing the `Full_Name` column
the run is not aborted before the scan begins; the missing column surfaces
as the `KeyError` raised while the scan is already processing the first
pair (0, 1) — there is no validation step between `pd.read_csv` and the
pairwise loop. -/
theorem claim2_counterexample :
    run_scan_raw fuzzFull parseNone cfg85 tableNoName =
      Except.error (ScanError.keyError 0 1 "Full_Name") := by
  rfl

/-- C2 (amended): the code performs no up-front required-column validation;
on every table with at least two rows whose first row lacks `Full_Name`,
the run aborts with the `KeyError` raised at the first pairwise comparison
(0, 1) — the missing column is discovered mid-scan, not reported before
comparison work begins. -/
theorem claim2_theorem (F : Fuzz) (parse : String → Option Int)
    (cfg : DetectionConfig) (r0 r1 : Row) (rest : List Row)
    (h : List.lookup "Full_Name" r0 = none) :
    run_scan_raw F parse cfg (r0 :: r1 :: rest) =
      Except.error (ScanError.keyError 0 1 "Full_Name") := by
  obtain ⟨tl, htl⟩ := pairIndices_head rest.length
  have hlen : (r0 :: r1 :: rest).length = rest.length + 2 := by
    simp only [List.length_cons]
  have hpair : raw_pair F parse cfg (r0 :: r1 :: rest) 0 1 =
      Except.error (ScanError.keyError 0 1 "Full_Name") := by
    rw [raw_pair]
    simp [getItem, h]
    rfl
  rw [run_scan_raw, hlen, htl, raw_scan]
  simp [hpair]

/-- Witness for C2: the amended theorem applied to the concrete
`Full_Name`-less table. -/
theorem claim2_witness :
    run_scan_raw fuzzEq parseNone cfgNoAddr tableNoName =
      Except.error (ScanError.keyError 0 1 "Full_Name") :=
  claim2_theorem fuzzEq parseNone cfgNoAddr [("Voter_ID", some "V001")]
    [("Voter_ID", some "V002")] [] rfl

end Drishti
